import Mathlib

/-!
Verification development for the databend pipeline-executor core and the
fuse-storage block-serialization processor.

Executor side: shallow embedding of
`src/query/src/pipelines/new/executor/executor_worker_context.rs`
(`ExecutorTask`, `ExecutorWorkerContext`, `ExecutingAsyncTaskWaker`).
Shared mutable cells (the atomic flag, the notifier, the completed-task
queue) are embedded as explicit state threaded through the functions, and
processor-method invocations are recorded in a ghost call log so that
"never invokes the processor" properties are statable.

Processor side: shallow embedding of
`src/query/storages/fuse/src/operations/common/processors/transform_serialize_block.rs`
(`TransformSerializeBlock` with its `State` machine and the
`event`/`process`/`async_process` triad of the `Processor` trait).
-/

namespace Databend

/-- Error codes used by the embedded code paths (from common_exception
`ErrorCode`): `LogicalError` for scheduler invariant violations,
`Internal` for internal defects, `Other` for any further error value. -/
inductive ErrorCode where
  | LogicalError (msg : String)
  | Internal (msg : String)
  | Other (code : Nat) (msg : String)
deriving DecidableEq

/-- Readiness classification a processor reports for itself
(pipeline-core `Event`). -/
inductive Event where
  | NeedData
  | NeedConsume
  | Sync
  | Async
  | Finished
deriving DecidableEq

deriving instance DecidableEq for Except

/-- A processor handle as the worker context sees it: the graph node index
returned by `id()`, and the outcomes of its `process()` and
`async_process()` methods, embedded as data since the scheduler treats the
processor's internal logic as an opaque unit of work. -/
structure ProcessorPtr where
  pid : Nat
  processResult : Except ErrorCode Unit
  asyncResult : Except ErrorCode Unit
deriving DecidableEq

/-- Modelled from the spec: `CompletedAsyncTask` (executor_tasks.rs is not
part of the sampled source) — a previously spawned asynchronous unit that
finished, carrying the node identity, the ordinal of the worker that issued
it, and the result awaiting pickup. -/
structure CompletedAsyncTask where
  id : Nat
  worker_id : Nat
  res : Except ErrorCode Unit
deriving DecidableEq

/-- Modelled from the spec: constructor `CompletedAsyncTask::create`
packages the processor identity, issuing worker ordinal and result. -/
def CompletedAsyncTask.create (p : ProcessorPtr) (worker_id : Nat)
    (res : Except ErrorCode Unit) : CompletedAsyncTask :=
  ⟨p.pid, worker_id, res⟩

/-- One dispatchable unit of work (`ExecutorTask`). -/
inductive ExecutorTask where
  | None
  | Sync (p : ProcessorPtr)
  | Async (p : ProcessorPtr)
  | AsyncCompleted (t : CompletedAsyncTask)
deriving DecidableEq

/-- Per-worker context (`ExecutorWorkerContext`): worker ordinal, the
currently-held task, and a handle to the shared notifier (embedded as an
abstract handle value). -/
structure ExecutorWorkerContext where
  worker_num : Nat
  task : ExecutorTask
  workers_notify : Nat
deriving DecidableEq

/-- A future handed to the async runtime by `execute_async_task`: it
captures the processor and the issuing worker's ordinal. -/
structure SpawnedFuture where
  processor : ProcessorPtr
  worker_id : Nat
deriving DecidableEq

/-- The executor state visible from the worker context: the shared
completed-async-task queue (`global_tasks_queue`) and the list of futures
handed to the async runtime (`async_runtime.spawn`), embedded as explicit
state. -/
structure PipelineExecutor where
  global_tasks_queue : List CompletedAsyncTask
  spawned : List SpawnedFuture
deriving DecidableEq

/-- Ghost record of a processor-method invocation, used to state that a
dispatch path does or does not invoke the processor. -/
inductive ProcCall where
  | processCall (pid : Nat)
  | asyncProcessCall (pid : Nat)
deriving DecidableEq

/-- Result of one `execute_task` call: the returned value, the updated
worker context, the updated executor state, and the ghost log of processor
methods invoked synchronously during the call. -/
structure ExecResult where
  result : Except ErrorCode (Option Nat)
  ctx : ExecutorWorkerContext
  exec : PipelineExecutor
  calls : List ProcCall
deriving DecidableEq

namespace ExecutorWorkerContext

/-- Constructor `ExecutorWorkerContext::create`: starts holding
`ExecutorTask::None`. -/
def create (worker_num : Nat) (workers_notify : Nat) : ExecutorWorkerContext :=
  { worker_num := worker_num, task := ExecutorTask.None,
    workers_notify := workers_notify }

/-- Method `has_task`: true unless the held task is `ExecutorTask::None`. -/
def has_task (c : ExecutorWorkerContext) : Bool :=
  match c.task with
  | ExecutorTask.None => false
  | _ => true

/-- Method `get_worker_num`. -/
def get_worker_num (c : ExecutorWorkerContext) : Nat :=
  c.worker_num

/-- Method `set_task`: overwrite the held task. -/
def set_task (c : ExecutorWorkerContext) (t : ExecutorTask) : ExecutorWorkerContext :=
  { c with task := t }

/-- Method `take_task`: `mem::replace(&mut self.task, ExecutorTask::None)`. -/
def take_task (c : ExecutorWorkerContext) : ExecutorTask × ExecutorWorkerContext :=
  (c.task, { c with task := ExecutorTask.None })

/-- Method `execute_task`: replaces the held task with `None`, then
dispatches on what was held.  `Sync` runs `processor.process()` inline and
on success returns the processor's node index; `Async` hands a future to
the async runtime and returns `Ok(None)` immediately; `AsyncCompleted`
returns the completed task's node index; `None` is a `LogicalError`. -/
def execute_task (c : ExecutorWorkerContext) (exec : PipelineExecutor) : ExecResult :=
  let c' : ExecutorWorkerContext := { c with task := ExecutorTask.None }
  match c.task with
  | ExecutorTask.None =>
      ⟨Except.error (ErrorCode.LogicalError "Execute none task."), c', exec, []⟩
  | ExecutorTask.Sync p =>
      match p.processResult with
      | Except.error e => ⟨Except.error e, c', exec, [ProcCall.processCall p.pid]⟩
      | Except.ok _ => ⟨Except.ok (some p.pid), c', exec, [ProcCall.processCall p.pid]⟩
  | ExecutorTask.Async p =>
      ⟨Except.ok none, c',
       { exec with spawned := exec.spawned ++ [⟨p, c.worker_num⟩] }, []⟩
  | ExecutorTask.AsyncCompleted t =>
      ⟨Except.ok (some t.id), c', exec, []⟩

end ExecutorWorkerContext

/-- Running one spawned future (the closure built in `execute_async_task`):
awaits `processor.async_process()`, packages the result as a
`CompletedAsyncTask` tagged with the issuing worker's ordinal, and appends
it to the shared completed-async-task queue. -/
def runSpawnedFuture (f : SpawnedFuture) (exec : PipelineExecutor) :
    PipelineExecutor × List ProcCall :=
  ({ exec with
      global_tasks_queue := exec.global_tasks_queue ++
        [CompletedAsyncTask.create f.processor f.worker_id f.processor.asyncResult] },
   [ProcCall.asyncProcessCall f.processor.pid])

/-- The waker for an executing asynchronous task
(`ExecutingAsyncTaskWaker`): it remembers the ordinal of the worker that
issued the task; the shared atomic flag and notifier it closes over are
embedded as explicit `WakerState`. -/
structure ExecutingAsyncTaskWaker where
  worker_id : Nat
deriving DecidableEq

/-- The shared state a waker acts on: the `AtomicBool` flag and the
notifier, the latter embedded (modelled from the spec:
`WorkersNotify::wakeup`, executor_notify.rs is not part of the sampled
source) as the log of worker ordinals woken so far. -/
structure WakerState where
  flag : Bool
  wakeups : List Nat
deriving DecidableEq

/-- One primitive step `wake_by_ref` performs on the shared state. -/
inductive WakeAction where
  | storeFlag (b : Bool)
  | wakeupWorker (id : Nat)
deriving DecidableEq

/-- Effect of one primitive waker step on the shared state: storing the
flag, or appending the target worker ordinal to the wakeup log. -/
def applyWakeAction (s : WakerState) (a : WakeAction) : WakerState :=
  match a with
  | WakeAction.storeFlag b => { s with flag := b }
  | WakeAction.wakeupWorker id => { s with wakeups := s.wakeups ++ [id] }

namespace ExecutingAsyncTaskWaker

/-- Constructor `ExecutingAsyncTaskWaker::create`: remembers the issuing
worker's ordinal (the flag and notifier are shared state, not copied). -/
def create (worker_id : Nat) : ExecutingAsyncTaskWaker :=
  ⟨worker_id⟩

/-- The ordered sequence of steps `wake_by_ref` performs: first
`flag.store(true, Release)`, then `workers_notify.wakeup(worker_id)`. -/
def wakeByRefTrace (w : ExecutingAsyncTaskWaker) : List WakeAction :=
  [WakeAction.storeFlag true, WakeAction.wakeupWorker w.worker_id]

/-- Method `wake_by_ref`: runs the trace on the shared state. -/
def wake_by_ref (w : ExecutingAsyncTaskWaker) (s : WakerState) : WakerState :=
  List.foldl applyWakeAction s w.wakeByRefTrace

end ExecutingAsyncTaskWaker

/-- Cluster-statistics generation mode attached to a block awaiting
serialization (`ClusterStatsGenType`): the usual append path, or a
recluster path carrying origin statistics (embedded as an abstract value). -/
inductive ClusterStatsGenType where
  | Generally
  | WithOrigin (origin : Nat)
deriving DecidableEq

/-- Instruction meta attached to an incoming block (`SerializeDataMeta`):
delete a whole segment, serialize (replace) a block at a given meta index
with a stats mode, or record compact extras.  `BlockMetaIndex` and the
segment/extras payloads are embedded as abstract values. -/
inductive SerializeDataMeta where
  | DeletedSegment (deleted_segment : Nat)
  | SerializeBlock (index : Nat) (stats_type : ClusterStatsGenType)
  | CompactExtras (extras : Nat)
deriving DecidableEq

/-- Statistics of one written block (`BlockMeta` of the serialization):
its storage location, row count and byte size — the fields
`async_process` reads. -/
structure BlockMetaInfo where
  location : String
  row_count : Nat
  block_size : Nat
deriving DecidableEq

/-- A mutation-log entry (`MutationLogEntry`), the meta this transform
emits downstream. -/
inductive MutationLogEntry where
  | DeletedSegment (deleted_segment : Nat)
  | DeletedBlock (index : Nat)
  | CompactExtras (extras : Nat)
  | DoNothing
  | ReplacedBlock (index : Nat) (block_meta : BlockMetaInfo)
deriving DecidableEq

/-- The dynamic block meta a `DataBlock` can carry.  The transform only
ever downcasts to `SerializeDataMeta`; `mutationLogs` and `appendMeta` are
what it attaches on output; `otherMeta` stands for any other dynamic meta
type, on which the downcast fails. -/
inductive BlockMeta where
  | serializeMeta (m : SerializeDataMeta)
  | mutationLogs (entries : List MutationLogEntry)
  | appendMeta (m : BlockMetaInfo)
  | otherMeta (tag : Nat)
deriving DecidableEq

/-- A data block: its row count (payload embedded as the count, which is
all the transform inspects via `is_empty`) and its optional dynamic meta. -/
structure DataBlock where
  rows : Nat
  meta : Option BlockMeta
deriving DecidableEq

/-- Method `DataBlock::is_empty`. -/
def DataBlock.isEmpty (b : DataBlock) : Bool :=
  b.rows == 0

/-- Constructor `DataBlock::empty_with_meta`. -/
def DataBlock.empty_with_meta (m : BlockMeta) : DataBlock :=
  { rows := 0, meta := some m }

/-- An index file produced by serialization (bloom or inverted): raw
bytes, size and location, the fields `async_process` reads. -/
structure IndexState where
  data : List Nat
  size : Nat
  location : String
deriving DecidableEq

/-- Result of serializing one block (`BlockSerialization`): the raw block
data with its meta, an optional bloom-index file and any inverted-index
files. -/
structure BlockSerialization where
  block_raw_data : List Nat
  block_meta : BlockMetaInfo
  bloom_index_state : Option IndexState
  inverted_index_states : List IndexState
deriving DecidableEq

/-- Modelled from the spec: an input port — the upstream end of a
single-slot channel, with its buffered slot (which may carry an error in
place of data), finished flag and need-data flag, plus a ghost counter of
pulls used to state frame properties. -/
structure InputPort where
  data : Option (Except ErrorCode DataBlock)
  finished : Bool
  need_data : Bool
  pull_count : Nat
deriving DecidableEq

/-- Modelled from the spec: `InputPort::has_data`. -/
def InputPort.hasData (p : InputPort) : Bool :=
  p.data.isSome

/-- Modelled from the spec: `InputPort::set_need_data` raises the
pending-pull flag used for backpressure signalling. -/
def InputPort.setNeedData (p : InputPort) : InputPort :=
  { p with need_data := true }

/-- Modelled from the spec: `InputPort::pull_data` takes the buffered unit
out of the slot (the ghost pull counter records the pull). -/
def InputPort.pullData (p : InputPort) : Option (Except ErrorCode DataBlock) × InputPort :=
  (p.data, { p with data := none, pull_count := p.pull_count + 1 })

/-- Modelled from the spec: an output port — the downstream end of a
single-slot channel, with its buffered slot and finished flag, plus a
ghost counter of pushes used to state the single-slot bound. -/
structure OutputPort where
  data : Option (Except ErrorCode DataBlock)
  finished : Bool
  push_count : Nat
deriving DecidableEq

/-- Modelled from the spec: `OutputPort::can_push` — the port accepts a
push only when it is not finished and its single slot is empty (a
processor must not produce into a port holding unconsumed data). -/
def OutputPort.canPush (p : OutputPort) : Bool :=
  !p.finished && p.data.isNone

/-- Modelled from the spec: `OutputPort::push_data` stores the unit in the
slot (the ghost push counter records the push). -/
def OutputPort.pushData (p : OutputPort) (d : Except ErrorCode DataBlock) : OutputPort :=
  { p with data := some d, push_count := p.push_count + 1 }

/-- Modelled from the spec: `OutputPort::finish` is monotone — it sets the
finished flag. -/
def OutputPort.finish (p : OutputPort) : OutputPort :=
  { p with finished := true }

/-- Internal state machine of `TransformSerializeBlock` (`State`). -/
inductive State where
  | Consume
  | NeedSerialize (block : DataBlock) (stats_type : ClusterStatsGenType)
      (index : Option Nat)
  | Serialized (serialized : BlockSerialization) (index : Option Nat)
deriving DecidableEq

/-- Discriminator for `matches!(state, State::NeedSerialize { .. })`. -/
def State.isNeedSerialize : State → Bool
  | State.NeedSerialize _ _ _ => true
  | _ => false

/-- Discriminator for `matches!(state, State::Serialized { .. })`. -/
def State.isSerialized : State → Bool
  | State.Serialized _ _ => true
  | _ => false

/-- The block builder held by the transform (`BlockBuilder`): its `build`
method, which serializes a block under a stats mode, embedded as an opaque
fallible function since its internals (statistics, bloom and inverted
index construction) are external collaborators. -/
structure BlockBuilder where
  build : DataBlock → ClusterStatsGenType → Except ErrorCode BlockSerialization

/-- External collaborators invoked by `process`/`async_process`:
`DataBlock::check_valid` and the storage-write `write_data`, embedded as
opaque fallible functions. -/
structure Env where
  checkValid : DataBlock → Except ErrorCode Unit
  writeData : List Nat → String → Except ErrorCode Unit

/-- The processor `TransformSerializeBlock`: state machine, the two ports,
the buffered output block, the block builder, the storage operator handle
(abstract) and the optional table id, plus ghost fields tracking the
write-progress counters and multi-table-insert status updates that
`async_process` performs through the table context. -/
structure TransformSerializeBlock where
  state : State
  input : InputPort
  output : OutputPort
  output_data : Option DataBlock
  block_builder : BlockBuilder
  dal : Nat
  table_id : Option Nat
  progress_rows : Nat
  progress_bytes : Nat
  multi_table_status : List (Nat × Nat)

/-- Helper `TransformSerializeBlock::mutation_logs`: wrap one mutation-log
entry as an empty block carrying `MutationLogs` meta. -/
def mutation_logs (entry : MutationLogEntry) : DataBlock :=
  DataBlock.empty_with_meta (BlockMeta.mutationLogs [entry])

namespace TransformSerializeBlock

/-- Method `event` of the `Processor` trait for `TransformSerializeBlock`,
returning the event (or error) together with the updated processor (whose
ports are part of the embedded state). -/
def event (t : TransformSerializeBlock) :
    Except ErrorCode Event × TransformSerializeBlock :=
  match t.state with
  | State.NeedSerialize _ _ _ => (Except.ok Event.Sync, t)
  | State.Serialized _ _ => (Except.ok Event.Async, t)
  | State.Consume =>
    if t.output.finished then (Except.ok Event.Finished, t)
    else if !t.output.canPush then (Except.ok Event.NeedConsume, t)
    else
      match t.output_data with
      | some data_block =>
          (Except.ok Event.NeedConsume,
           { t with output_data := none,
                    output := (t.output.pushData (Except.ok data_block)) })
      | none =>
        if t.input.finished then
          (Except.ok Event.Finished, { t with output := t.output.finish })
        else
          -- the slot is the has_data flag: the none branch is the
          -- !has_data path, and pull_data.unwrap() cannot fail otherwise
          match t.input.data with
          | none => (Except.ok Event.NeedData, { t with input := t.input.setNeedData })
          | some pulled =>
            let t1 := { t with input := (t.input.pullData).2 }
            match pulled with
            | Except.error e => (Except.error e, t1)
            | Except.ok input_data0 =>
              let meta := input_data0.meta
              let input_data := { input_data0 with meta := none }
              match meta with
              | some (BlockMeta.serializeMeta (SerializeDataMeta.DeletedSegment seg)) =>
                  (Except.ok Event.NeedConsume,
                   { t1 with output := (t1.output.pushData
                       (Except.ok (mutation_logs (MutationLogEntry.DeletedSegment seg)))) })
              | some (BlockMeta.serializeMeta (SerializeDataMeta.SerializeBlock idx stats)) =>
                  if input_data.isEmpty then
                    (Except.ok Event.NeedConsume,
                     { t1 with output := (t1.output.pushData
                         (Except.ok (mutation_logs (MutationLogEntry.DeletedBlock idx)))) })
                  else
                    (Except.ok Event.Sync,
                     { t1 with state := (State.NeedSerialize input_data stats (some idx)) })
              | some (BlockMeta.serializeMeta (SerializeDataMeta.CompactExtras extras)) =>
                  (Except.ok Event.NeedConsume,
                   { t1 with output := (t1.output.pushData
                       (Except.ok (mutation_logs (MutationLogEntry.CompactExtras extras)))) })
              | some _ =>
                  (Except.error (ErrorCode.Internal "It's a bug"), t1)
              | none =>
                if input_data.isEmpty then
                  (Except.ok Event.NeedConsume,
                   { t1 with output := (t1.output.pushData
                       (Except.ok (mutation_logs MutationLogEntry.DoNothing))) })
                else
                  (Except.ok Event.Sync,
                   { t1 with state := (State.NeedSerialize input_data
                       ClusterStatsGenType.Generally none) })

/-- Method `process`: replaces the state with `Consume`, then — only if the
old state was `NeedSerialize` — validates the block, builds the
serialization and moves to `Serialized`; any other old state is an
internal error. -/
def process (env : Env) (t : TransformSerializeBlock) :
    Except ErrorCode Unit × TransformSerializeBlock :=
  match t.state with
  | State.NeedSerialize block stats_type index =>
    let t1 := { t with state := State.Consume }
    match env.checkValid block with
    | Except.error e => (Except.error e, t1)
    | Except.ok _ =>
      match t.block_builder.build block stats_type with
      | Except.error e => (Except.error e, t1)
      | Except.ok serialized =>
          (Except.ok (), { t1 with state := State.Serialized serialized index })
  | _ => (Except.error (ErrorCode.Internal "It's a bug."), { t with state := State.Consume })

/-- Sequence of writes `async_process` issues for the inverted-index
files. -/
def writeIndexStates (env : Env) : List IndexState → Except ErrorCode Unit
  | [] => Except.ok ()
  | s :: rest =>
    match env.writeData s.data s.location with
    | Except.error e => Except.error e
    | Except.ok _ => writeIndexStates env rest

/-- Method `async_process`: replaces the state with `Consume`, then — only
if the old state was `Serialized` — writes the block data, the optional
bloom index and the inverted indexes; on success stores the resulting
mutation-log or block-meta block in `output_data` (updating progress and
multi-table status on the append path); any other old state is an internal
error. -/
def async_process (env : Env) (t : TransformSerializeBlock) :
    Except ErrorCode Unit × TransformSerializeBlock :=
  match t.state with
  | State.Serialized serialized index =>
    let t1 := { t with state := State.Consume }
    match env.writeData serialized.block_raw_data serialized.block_meta.location with
    | Except.error e => (Except.error e, t1)
    | Except.ok _ =>
      match (match serialized.bloom_index_state with
             | some b => env.writeData b.data b.location
             | none => Except.ok ()) with
      | Except.error e => (Except.error e, t1)
      | Except.ok _ =>
        match writeIndexStates env serialized.inverted_index_states with
        | Except.error e => (Except.error e, t1)
        | Except.ok _ =>
          match index with
          | some idx =>
              let data_block := mutation_logs
                (MutationLogEntry.ReplacedBlock idx serialized.block_meta)
              (Except.ok (), { t1 with output_data := some data_block })
          | none =>
              let t2 := { t1 with
                progress_rows := t1.progress_rows + serialized.block_meta.row_count,
                progress_bytes := t1.progress_bytes + serialized.block_meta.block_size }
              let t3 :=
                match t2.table_id with
                | some tid => { t2 with multi_table_status :=
                    t2.multi_table_status ++ [(tid, serialized.block_meta.row_count)] }
                | none => t2
              (Except.ok (),
               { t3 with output_data := (some
                   (DataBlock.empty_with_meta (BlockMeta.appendMeta serialized.block_meta))) })
  | _ => (Except.error (ErrorCode.Internal "It's a bug."), { t with state := State.Consume })

end TransformSerializeBlock

/-- A concrete data block used by the concrete processors below. -/
def blkEx : DataBlock :=
  { rows := 2, meta := none }

/-- A concrete block serialization used by the concrete processors below. -/
def serEx : BlockSerialization :=
  { block_raw_data := [1, 2, 3],
    block_meta := { location := "b1", row_count := 5, block_size := 40 },
    bloom_index_state := some { data := [4], size := 1, location := "i1" },
    inverted_index_states := [{ data := [6], size := 1, location := "v1" }] }

/-- A concrete block builder that serializes every block to `serEx`. -/
def bbEx : BlockBuilder :=
  ⟨fun _ _ => Except.ok serEx⟩

/-- A concrete environment whose validation and writes all succeed. -/
def envEx : Env :=
  ⟨fun _ => Except.ok (), fun _ _ => Except.ok ()⟩

/-- An input port with an empty slot, not finished. -/
def inEmpty : InputPort :=
  { data := none, finished := false, need_data := false, pull_count := 0 }

/-- An output port with an empty slot, not finished. -/
def outEmpty : OutputPort :=
  { data := none, finished := false, push_count := 0 }

/-- A concrete transform in the `Consume` state with idle ports and no
buffered output. -/
def tConsume : TransformSerializeBlock :=
  { state := State.Consume, input := inEmpty, output := outEmpty,
    output_data := none, block_builder := bbEx, dal := 0, table_id := none,
    progress_rows := 0, progress_bytes := 0, multi_table_status := [] }

/-- The transform `tConsume` with its output port already finished. -/
def tOutFinished : TransformSerializeBlock :=
  { tConsume with output := { outEmpty with finished := true } }

/-- The transform `tConsume` with a buffered output block waiting to be
pushed. -/
def tBuffered : TransformSerializeBlock :=
  { tConsume with output_data := some blkEx }

/-- The transform `tConsume` with an unconsumed unit in its output port's
slot. -/
def tFull : TransformSerializeBlock :=
  { tConsume with output := { outEmpty with data := some (Except.ok blkEx) } }

/-- The transform `tConsume` holding a block awaiting serialization. -/
def tNeedSer : TransformSerializeBlock :=
  { tConsume with
    state := State.NeedSerialize blkEx ClusterStatsGenType.Generally none }

/-- The transform `tConsume` holding a serialized block awaiting its
write. -/
def tSerialized : TransformSerializeBlock :=
  { tConsume with state := State.Serialized serEx (some 3) }

/-- C1: for every worker context whose currently-held task is
`ExecutorTask::None`, `execute_task` returns a `LogicalError` (dispatching
an empty task fails loud) and it never invokes any processor method (the
ghost call log stays empty). -/
theorem execute_none_task_fails_loud (c : ExecutorWorkerContext)
    (exec : PipelineExecutor) (h : c.task = ExecutorTask.None) :
    (c.execute_task exec).result =
      Except.error (ErrorCode.LogicalError "Execute none task.") ∧
    (c.execute_task exec).calls = [] := by
  simp [ExecutorWorkerContext.execute_task, h]

/-- Witness for C1 at a freshly created context, whose held task is
`ExecutorTask::None`. -/
theorem execute_none_task_fails_loud_witness :
    (ExecutorWorkerContext.create 0 7).task = ExecutorTask.None ∧
    ((ExecutorWorkerContext.create 0 7).execute_task ⟨[], []⟩).result =
      Except.error (ErrorCode.LogicalError "Execute none task.") ∧
    ((ExecutorWorkerContext.create 0 7).execute_task ⟨[], []⟩).calls = [] :=
  ⟨rfl, execute_none_task_fails_loud (ExecutorWorkerContext.create 0 7) ⟨[], []⟩ rfl⟩

/-- C6: `execute_task` dispatches by task kind — a `Sync` task invokes
`process()` on the held processor and on success returns that processor's
node index (errors propagate), touching nothing else in the executor; an
`Async` task returns `Ok(None)` immediately, spawning onto the async
runtime a future that records the issuing worker's ordinal and, when run,
invokes `async_process()` and delivers a `CompletedAsyncTask` tagged with
that ordinal to the shared completion queue; an `AsyncCompleted` task
returns the completed task's node index without invoking the processor. -/
theorem execute_task_dispatch (c : ExecutorWorkerContext)
    (exec : PipelineExecutor) (p : ProcessorPtr) (ct : CompletedAsyncTask) :
    ((c.set_task (ExecutorTask.Sync p)).execute_task exec).result =
        Except.map (fun _ => some p.pid) p.processResult ∧
    ((c.set_task (ExecutorTask.Sync p)).execute_task exec).calls =
        [ProcCall.processCall p.pid] ∧
    ((c.set_task (ExecutorTask.Sync p)).execute_task exec).exec = exec ∧
    ((c.set_task (ExecutorTask.Async p)).execute_task exec).result = Except.ok none ∧
    ((c.set_task (ExecutorTask.Async p)).execute_task exec).calls = [] ∧
    ((c.set_task (ExecutorTask.Async p)).execute_task exec).exec.spawned =
        exec.spawned ++ [⟨p, c.worker_num⟩] ∧
    (runSpawnedFuture ⟨p, c.worker_num⟩ exec).1.global_tasks_queue =
        exec.global_tasks_queue ++ [⟨p.pid, c.worker_num, p.asyncResult⟩] ∧
    (runSpawnedFuture ⟨p, c.worker_num⟩ exec).2 =
        [ProcCall.asyncProcessCall p.pid] ∧
    ((c.set_task (ExecutorTask.AsyncCompleted ct)).execute_task exec).result =
        Except.ok (some ct.id) ∧
    ((c.set_task (ExecutorTask.AsyncCompleted ct)).execute_task exec).calls = [] := by
  obtain ⟨pid, pr, ar⟩ := p
  cases pr <;>
    simp [ExecutorWorkerContext.execute_task, ExecutorWorkerContext.set_task,
          runSpawnedFuture, CompletedAsyncTask.create, Except.map]

/-- C7: `wake_by_ref` on an `ExecutingAsyncTaskWaker` first stores `true`
into the shared flag and then wakes exactly the worker whose ordinal the
waker was created with; a repeated invocation leaves the flag `true`
(idempotent on the flag), appending only a further wakeup of the same
worker. -/
theorem waker_stores_flag_then_wakes_issuing_worker (worker_id : Nat)
    (s : WakerState) :
    (ExecutingAsyncTaskWaker.create worker_id).wakeByRefTrace =
      [WakeAction.storeFlag true, WakeAction.wakeupWorker worker_id] ∧
    ((ExecutingAsyncTaskWaker.create worker_id).wake_by_ref s).flag = true ∧
    ((ExecutingAsyncTaskWaker.create worker_id).wake_by_ref s).wakeups =
      s.wakeups ++ [worker_id] ∧
    ((ExecutingAsyncTaskWaker.create worker_id).wake_by_ref
        ((ExecutingAsyncTaskWaker.create worker_id).wake_by_ref s)).flag = true ∧
    ((ExecutingAsyncTaskWaker.create worker_id).wake_by_ref
        ((ExecutingAsyncTaskWaker.create worker_id).wake_by_ref s)).wakeups =
      (s.wakeups ++ [worker_id]) ++ [worker_id] := by
  simp [ExecutingAsyncTaskWaker.create, ExecutingAsyncTaskWaker.wake_by_ref,
        ExecutingAsyncTaskWaker.wakeByRefTrace, applyWakeAction]

/-- C8: a held task is consumed exactly once — after `take_task` or
`execute_task` the context holds `ExecutorTask::None` (`has_task` is
false), and a second `execute_task` without an intervening `set_task`
returns the `LogicalError` for an empty task. -/
theorem task_consumed_exactly_once (c : ExecutorWorkerContext)
    (exec : PipelineExecutor) :
    (c.take_task).2.has_task = false ∧
    (c.execute_task exec).ctx.has_task = false ∧
    (((c.execute_task exec).ctx).execute_task (c.execute_task exec).exec).result =
      Except.error (ErrorCode.LogicalError "Execute none task.") := by
  obtain ⟨wn, tk, nt⟩ := c
  cases tk with
  | None =>
      simp [ExecutorWorkerContext.execute_task, ExecutorWorkerContext.take_task,
            ExecutorWorkerContext.has_task]
  | Sync p =>
      obtain ⟨pid, pr, ar⟩ := p
      cases pr <;>
        simp [ExecutorWorkerContext.execute_task, ExecutorWorkerContext.take_task,
              ExecutorWorkerContext.has_task]
  | Async p =>
      simp [ExecutorWorkerContext.execute_task, ExecutorWorkerContext.take_task,
            ExecutorWorkerContext.has_task]
  | AsyncCompleted t =>
      simp [ExecutorWorkerContext.execute_task, ExecutorWorkerContext.take_task,
            ExecutorWorkerContext.has_task]

/-- C10: a freshly created worker context holds no task, and `set_task`
followed by `take_task` is a round trip — it returns exactly the task that
was set, leaves the context holding `ExecutorTask::None`, and never
changes the worker ordinal or the notifier handle. -/
theorem set_then_take_round_trip (wn notify : Nat) (t : ExecutorTask) :
    (ExecutorWorkerContext.create wn notify).has_task = false ∧
    (((ExecutorWorkerContext.create wn notify).set_task t).take_task).1 = t ∧
    (((ExecutorWorkerContext.create wn notify).set_task t).take_task).2.task =
      ExecutorTask.None ∧
    (((ExecutorWorkerContext.create wn notify).set_task t).take_task).2.worker_num = wn ∧
    (((ExecutorWorkerContext.create wn notify).set_task t).take_task).2.workers_notify =
      notify := by
  simp [ExecutorWorkerContext.create, ExecutorWorkerContext.set_task,
        ExecutorWorkerContext.take_task, ExecutorWorkerContext.has_task]

/-- C2 (amended): `event()` returns `Sync` exactly when the state after
the call is `NeedSerialize` and `Async` exactly when it is `Serialized`;
it returns `NeedData` when the state is `Consume`, the output port is
unfinished and can accept data, there is no buffered output, and the input
port neither has data nor is finished; and it returns `Finished` when the
state is `Consume` and either the output port is already finished, or the
output port can accept data, the buffered output is drained and the input
port is finished (in which case the output port is also marked
finished). -/
theorem event_outcome_classification (t : TransformSerializeBlock) :
    ((t.event).1 = Except.ok Event.Sync ↔
      (t.event).2.state.isNeedSerialize = true) ∧
    ((t.event).1 = Except.ok Event.Async ↔
      (t.event).2.state.isSerialized = true) ∧
    (t.state = State.Consume → t.output.finished = false →
      t.output.canPush = true → t.output_data = none →
      t.input.finished = false → t.input.data = none →
      (t.event).1 = Except.ok Event.NeedData) ∧
    (t.state = State.Consume → t.output.finished = true →
      (t.event).1 = Except.ok Event.Finished) ∧
    (t.state = State.Consume → t.output.finished = false →
      t.output.canPush = true → t.output_data = none →
      t.input.finished = true →
      (t.event).1 = Except.ok Event.Finished ∧
      (t.event).2.output.finished = true) := by
  obtain ⟨st, inp, out, od, bb, dal, tid, pr, pb, mts⟩ := t
  obtain ⟨idata, ifin, ind, ipc⟩ := inp
  obtain ⟨odata, ofin, opc⟩ := out
  cases st <;> cases ofin <;> cases odata <;> cases od <;> cases ifin <;>
    rcases idata with _ | ⟨e | ⟨(_ | rows), (_ | (sm | entries | bm | tag))⟩⟩ <;>
    (try cases sm) <;>
    simp [TransformSerializeBlock.event, OutputPort.canPush, InputPort.hasData,
          InputPort.pullData, OutputPort.pushData, OutputPort.finish,
          InputPort.setNeedData, State.isNeedSerialize, State.isSerialized,
          DataBlock.isEmpty, mutation_logs, DataBlock.empty_with_meta]

/-- Witness for C2: on a concrete idle `Consume` transform, `event`
reports `NeedData`. -/
theorem event_outcome_classification_witness :
    (tConsume.event).1 = Except.ok Event.NeedData :=
  (event_outcome_classification tConsume).2.2.1 rfl rfl rfl rfl rfl rfl

/-- Counterexample for C2 as stated: a transform in state `Consume` with
no buffered output whose input port neither has data nor is finished — the
claim asserts `event()` returns `NeedData` there, but because the output
port is finished the code returns `Finished`. -/
theorem event_needdata_clause_counterexample :
    tOutFinished.state = State.Consume ∧
    tOutFinished.output_data = none ∧
    tOutFinished.input.data = none ∧
    tOutFinished.input.finished = false ∧
    (tOutFinished.event).1 = Except.ok Event.Finished ∧
    (Except.ok Event.Finished : Except ErrorCode Event) ≠
      Except.ok Event.NeedData := by
  refine ⟨rfl, rfl, rfl, rfl, rfl, by decide⟩

/-- C3: a successful `process()` from `NeedSerialize` leaves the transform
in `Serialized`, and a successful `async_process()` from `Serialized`
leaves it in `Consume` with the result buffered in `output_data` — the
Consume → NeedSerialize → Serialized → Consume cycle. -/
theorem process_cycle (env : Env) (t : TransformSerializeBlock)
    (b : DataBlock) (st : ClusterStatsGenType) (i : Option Nat)
    (ser : BlockSerialization) (j : Option Nat) :
    (t.state = State.NeedSerialize b st i →
      (TransformSerializeBlock.process env t).1 = Except.ok () →
      (TransformSerializeBlock.process env t).2.state.isSerialized = true) ∧
    (t.state = State.Serialized ser j →
      (TransformSerializeBlock.async_process env t).1 = Except.ok () →
      (TransformSerializeBlock.async_process env t).2.state = State.Consume ∧
      (TransformSerializeBlock.async_process env t).2.output_data.isSome = true) := by
  constructor
  · intro h1 h2
    simp only [TransformSerializeBlock.process, h1] at h2 ⊢
    rcases hc : env.checkValid b with e | u
    · simp [hc] at h2
    · rcases hb : t.block_builder.build b st with e | s
      · simp [hc, hb] at h2
      · simp [hc, hb, State.isSerialized]
  · intro h1 h2
    simp only [TransformSerializeBlock.async_process, h1] at h2 ⊢
    rcases hw : env.writeData ser.block_raw_data ser.block_meta.location with e | u
    · simp [hw] at h2
    · rcases hbs : ser.bloom_index_state with _ | bs
      · rcases hv : TransformSerializeBlock.writeIndexStates env
            ser.inverted_index_states with e | u3
        · simp [hw, hbs, hv] at h2
        · cases j with
          | some idx => simp [hw, hbs, hv]
          | none =>
              cases htid : t.table_id with
              | some tid => simp [hw, hbs, hv, htid]
              | none => simp [hw, hbs, hv, htid]
      · rcases hw2 : env.writeData bs.data bs.location with e | u2
        · simp [hw, hbs, hw2] at h2
        · rcases hv : TransformSerializeBlock.writeIndexStates env
              ser.inverted_index_states with e | u3
          · simp [hw, hbs, hw2, hv] at h2
          · cases j with
            | some idx => simp [hw, hbs, hw2, hv]
            | none =>
                cases htid : t.table_id with
                | some tid => simp [hw, hbs, hw2, hv, htid]
                | none => simp [hw, hbs, hw2, hv, htid]

/-- Witness for C3 at a concrete transform and an environment whose
validation, build and writes all succeed. -/
theorem process_cycle_witness :
    (TransformSerializeBlock.process envEx tNeedSer).2.state.isSerialized = true ∧
    (TransformSerializeBlock.async_process envEx tSerialized).2.state = State.Consume ∧
    (TransformSerializeBlock.async_process envEx tSerialized).2.output_data.isSome = true :=
  ⟨(process_cycle envEx tNeedSer blkEx ClusterStatsGenType.Generally none
      serEx (some 3)).1 rfl rfl,
   (process_cycle envEx tSerialized blkEx ClusterStatsGenType.Generally none
      serEx (some 3)).2 rfl rfl⟩

/-- C4: `process()` called in any state other than `NeedSerialize` and
`async_process()` called in any state other than `Serialized` return an
internal error rather than performing work. -/
theorem process_wrong_state_errors (env : Env) (t : TransformSerializeBlock) :
    (t.state.isNeedSerialize = false →
      (TransformSerializeBlock.process env t).1 =
        Except.error (ErrorCode.Internal "It's a bug.")) ∧
    (t.state.isSerialized = false →
      (TransformSerializeBlock.async_process env t).1 =
        Except.error (ErrorCode.Internal "It's a bug.")) := by
  constructor
  · intro h1
    cases hs : t.state with
    | Consume => simp [TransformSerializeBlock.process, hs]
    | NeedSerialize b st i => rw [hs] at h1; simp [State.isNeedSerialize] at h1
    | Serialized s i => simp [TransformSerializeBlock.process, hs]
  · intro h1
    cases hs : t.state with
    | Consume => simp [TransformSerializeBlock.async_process, hs]
    | NeedSerialize b st i => simp [TransformSerializeBlock.async_process, hs]
    | Serialized s i => rw [hs] at h1; simp [State.isSerialized] at h1

/-- Witness for C4 at a concrete transform in the `Consume` state. -/
theorem process_wrong_state_errors_witness :
    tConsume.state.isNeedSerialize = false ∧
    tConsume.state.isSerialized = false ∧
    (TransformSerializeBlock.process envEx tConsume).1 =
      Except.error (ErrorCode.Internal "It's a bug.") ∧
    (TransformSerializeBlock.async_process envEx tConsume).1 =
      Except.error (ErrorCode.Internal "It's a bug.") :=
  ⟨rfl, rfl, (process_wrong_state_errors envEx tConsume).1 rfl,
   (process_wrong_state_errors envEx tConsume).2 rfl⟩

set_option maxHeartbeats 1600000 in
/-- C5 (amended): `event()` bases its decision only on port flags and
internal buffered state and performs no serialization or write work, but
it is not free of port effects — it may push at most one unit to the
output port, pull at most one unit from the input port, and update the
state machine and output buffer; it never touches the block builder, the
storage operator handle, the table id, or the progress and
multi-table-insert bookkeeping. -/
theorem event_frame (t : TransformSerializeBlock) :
    ((t.event).2.block_builder = t.block_builder) ∧
    ((t.event).2.dal = t.dal) ∧
    ((t.event).2.table_id = t.table_id) ∧
    ((t.event).2.progress_rows = t.progress_rows) ∧
    ((t.event).2.progress_bytes = t.progress_bytes) ∧
    ((t.event).2.multi_table_status = t.multi_table_status) ∧
    ((t.event).2.output.push_count ≤ t.output.push_count + 1) ∧
    ((t.event).2.input.pull_count ≤ t.input.pull_count + 1) := by
  obtain ⟨st, inp, out, od, bb, dal, tid, pr, pb, mts⟩ := t
  obtain ⟨idata, ifin, ind, ipc⟩ := inp
  obtain ⟨odata, ofin, opc⟩ := out
  cases st <;> cases ofin <;> cases odata <;> cases od <;> cases ifin <;>
    rcases idata with _ | ⟨e | ⟨(_ | rows), (_ | (sm | entries | bm | tag))⟩⟩ <;>
    (try cases sm) <;>
    simp [TransformSerializeBlock.event, OutputPort.canPush, InputPort.hasData,
          InputPort.pullData, OutputPort.pushData, OutputPort.finish,
          InputPort.setNeedData, DataBlock.isEmpty, mutation_logs,
          DataBlock.empty_with_meta]

/-- Counterexample for C5 as stated: on a transform with a buffered output
block and a pushable output port, `event()` pushes that block to the
output port — its slot changes from empty to occupied — so `event` is not
free of port data movement. -/
theorem event_pushes_counterexample :
    tBuffered.output.data = none ∧
    (tBuffered.event).2.output.data = some (Except.ok blkEx) ∧
    some (Except.ok blkEx) ≠ (none : Option (Except ErrorCode DataBlock)) := by
  refine ⟨rfl, rfl, by decide⟩

set_option maxHeartbeats 1600000 in
/-- C9: in every `event()` invocation the transform pushes at most one
unit to its output port, a push happens only when `can_push` was observed
true at entry (in particular the slot was empty), and when the output port
is unfinished but cannot accept data the call returns `NeedConsume` and
leaves the output port untouched — preserving the single-slot port
bound. -/
theorem event_single_slot_push_discipline (t : TransformSerializeBlock) :
    ((t.event).2.output.push_count ≤ t.output.push_count + 1) ∧
    ((t.event).2.output.push_count ≠ t.output.push_count →
      t.output.canPush = true) ∧
    (t.state = State.Consume → t.output.finished = false →
      t.output.canPush = false →
      (t.event).1 = Except.ok Event.NeedConsume ∧
      (t.event).2.output = t.output) := by
  obtain ⟨st, inp, out, od, bb, dal, tid, pr, pb, mts⟩ := t
  obtain ⟨idata, ifin, ind, ipc⟩ := inp
  obtain ⟨odata, ofin, opc⟩ := out
  cases st <;> cases ofin <;> cases odata <;> cases od <;> cases ifin <;>
    rcases idata with _ | ⟨e | ⟨(_ | rows), (_ | (sm | entries | bm | tag))⟩⟩ <;>
    (try cases sm) <;>
    simp [TransformSerializeBlock.event, OutputPort.canPush, InputPort.hasData,
          InputPort.pullData, OutputPort.pushData, OutputPort.finish,
          InputPort.setNeedData, DataBlock.isEmpty, mutation_logs,
          DataBlock.empty_with_meta]

/-- Witness for C9: a concrete transform whose output port holds an
unconsumed unit — `event` returns `NeedConsume` and does not touch the
output port. -/
theorem event_single_slot_push_discipline_witness :
    (tFull.event).1 = Except.ok Event.NeedConsume ∧
    (tFull.event).2.output = tFull.output :=
  (event_single_slot_push_discipline tFull).2.2 rfl rfl rfl

end Databend
